import Mathlib

/-!
Verification of the hl7-standards-dev-dashboard core against its
natural-language specification.

The development shallowly embeds the Python sources:
  * `app/data_service.py`  — KPI indicator store and metrics engine;
  * `app/financial_parser.py` — Form 990 extractor and aggregator.

Conventions of the embedding:
  * Python `float` values are modelled as `ℚ` (the computations at issue are
    exact arithmetic identities; no claim depends on IEEE rounding).
  * Python `dict`s are modelled as association lists in insertion order
    (Python dicts preserve insertion order, which `get_chart_data` relies on).
  * Python string operations are re-implemented over `String.data`
    (the underlying character list) so that every definition evaluates
    inside the kernel; Python compares strings by code point, which is
    exactly the lexicographic order on `Char.toNat` used here.
  * A Python function that can raise an exception is embedded with an
    `Option`/`Except` result, `none`/`.error` marking the raising paths.
-/

/-! ### Python string primitives, re-implemented over `String.data` -/

/-- Code-point comparison of two character lists, the order Python uses for
`str` comparison (`a <= b`). -/
def lexLe : List Char → List Char → Bool
  | [], _ => true
  | _ :: _, [] => false
  | a :: as, b :: bs =>
    if a.toNat < b.toNat then true
    else if b.toNat < a.toNat then false
    else lexLe as bs

/-- Python `a <= b` on strings. -/
def pyStrLe (a b : String) : Bool := lexLe a.data b.data

/-- Python `sorted(...)` on a list of period-label strings. -/
def pySortedStr (l : List String) : List String :=
  List.insertionSort (fun a b => pyStrLe a b = true) l

/-- Python `sorted(...)` on a list of integers. -/
def pySortedInt (l : List Int) : List Int :=
  List.insertionSort (fun a b : Int => a ≤ b) l

/-- Python `needle in s` for a single-character needle. -/
def pyContainsChar (s : String) (c : Char) : Bool := s.data.contains c

/-- Python `s.startswith(pre)`. -/
def pyStartsWith (s pre : String) : Bool := pre.data.isPrefixOf s.data

/-- Python `s[:n]`. -/
def pyTake (s : String) (n : Nat) : String := String.mk (s.data.take n)

/-- Python `len(s)`. -/
def pyLen (s : String) : Nat := s.data.length

/-- Python `s.split("-")[0]`: the prefix of `s` before its first hyphen
(`s` itself when `s` has no hyphen). -/
def beforeFirstHyphen (s : String) : String :=
  String.mk (s.data.takeWhile (fun c => c ≠ '-'))

/-- Python `int(s)` for the shapes that occur in this program
(decimal digit strings); any other text raises, i.e. returns `none`.
(Python `int` additionally strips whitespace and accepts a sign; year
prefixes and `TaxYr` texts are plain digit strings, so this does not
affect any claim.) -/
def pyToNat (s : String) : Option Nat :=
  if s.data ≠ [] ∧ s.data.all Char.isDigit then
    some (s.data.foldl (fun n c => 10 * n + (c.toNat - 48)) 0)
  else none

/-- Python `d.get(k)` / `k in d` on a dict embedded as an association list. -/
def lookupStr {α : Type} (k : String) : List (String × α) → Option α
  | [] => none
  | (k', v) :: rest => if k' = k then some v else lookupStr k rest

/-! ### Data model (`app/models.py`)

Only fields the verified code reads are kept; display-only fields are
retained where cheap so that the shapes match `models.py`. -/

/-- `KPIMeasurement` (models.py): one period's reading. -/
structure KPIMeasurement where
  value : Option ℚ
  target : Option ℚ
  notes : Option String
deriving DecidableEq

/-- `KPIIndicator` (models.py). `measurements` and `targets` are dicts in
insertion order. -/
structure KPIIndicator where
  id : String
  name : String
  description : String
  domain : String
  stewards : List String
  primary_steward : String
  type : String
  unit : String
  target : Option ℚ
  targets : Option (List (String × ℚ))
  target_operation : Option String
  tags : List String
  image : Option String
  trend_direction : String
  measurements : List (String × KPIMeasurement)
deriving DecidableEq

/-- `KPIMetadata` (models.py). -/
structure KPIMetadata where
  version : String
  last_updated : String
  data_source : String
  time_periods : List String
  domains : List String
  stewards : List String
  refresh_timestamp : Option Int
deriving DecidableEq

/-- `KPIData` (models.py): the full loaded catalog. `indicators` is a dict in
insertion order. -/
structure KPIData where
  metadata : KPIMetadata
  indicators : List (String × KPIIndicator)
deriving DecidableEq

/-- `KPITrend` (models.py). -/
structure KPITrend where
  current : ℚ
  previous : ℚ
  change_pct : ℚ
  trend : String
deriving DecidableEq

/-- `ChartData` (models.py). -/
structure ChartData where
  labels : List String
  values : List ℚ
  colors : Option (List String)
  type : String
deriving DecidableEq

/-! ### KPI metrics engine (`app/data_service.py`)

The methods of `DataService` read `self._data`; they are embedded as
functions of the loaded `KPIData`. -/

/-- `sorted(self._data.metadata.time_periods)` (data_service.py:71,120,177,340). -/
def sortedPeriods (data : KPIData) : List String :=
  pySortedStr data.metadata.time_periods

/-- `calculate_trend` (data_service.py:63-114): trend between the two
lexicographically-latest periods. `none` embeds Python `None`. -/
def calculate_trend (data : KPIData) (ind : KPIIndicator) : Option KPITrend :=
  if data.metadata.time_periods.length < 2 then none
  else
    match (sortedPeriods data).getLast?, (sortedPeriods data).dropLast.getLast? with
    | some current_period, some previous_period =>
      match lookupStr current_period ind.measurements,
            lookupStr previous_period ind.measurements with
      | some cm, some pm =>
        match cm.value, pm.value with
        | some current_value, some previous_value =>
          let change_pct : ℚ :=
            if previous_value = 0 then
              (if current_value > 0 then 100 else 0)
            else if (previous_value < 0 ∧ current_value > 0)
                 ∨ (previous_value > 0 ∧ current_value < 0) then
              ((current_value - previous_value) / |previous_value|) * 100
            else
              ((current_value - previous_value) / previous_value) * 100
          let trend : String :=
            if change_pct > 0 then "up"
            else if change_pct < 0 then "down"
            else "stable"
          some ⟨current_value, previous_value, change_pct, trend⟩
        | _, _ => none
      | _, _ => none
    | _, _ => none

/-- `current_year` (data_service.py:122): the substring before the first
hyphen when the current period label contains one, Python `None` otherwise. -/
def currentYear (current_period : String) : Option String :=
  if pyContainsChar current_period '-' then some (beforeFirstHyphen current_period)
  else none

/-- The `year_values` loop (data_service.py:139-142): values of all measured
periods whose label starts with `year`, skipping `None` values. -/
def yearValues (ind : KPIIndicator) (year : String) : List ℚ :=
  ind.measurements.filterMap
    (fun pm => if pyStartsWith pm.1 year then pm.2.value else none)

/-- The annual aggregate (data_service.py:144-150): sum of the year's values,
their mean when `target_operation == 'average'`, and `0.0` when the year has
no readings. -/
def annualAggregate (ind : KPIIndicator) (year : String) : ℚ :=
  let year_values := yearValues ind year
  if year_values.isEmpty then 0
  else if ind.target_operation = some "average" then
    year_values.sum / year_values.length
  else
    year_values.sum

/-- The shared tail of `calculate_progress_to_target`
(data_service.py:158-162): zero-target policy, then uncapped ratio. -/
def progressFrom (current_value target : ℚ) : ℚ :=
  if target = 0 then (if current_value = 0 then 100 else 0)
  else (current_value / target) * 100

/-- The legacy fallback (data_service.py:151-156): branch 3 (legacy single
target) and branch 4 (no target at all). -/
def legacyBranch (ind : KPIIndicator) (current_value : ℚ) :
    Option ℚ × Option String × Option ℚ :=
  match ind.target with
  | some target => (some (progressFrom current_value target), some "legacy", some target)
  | none => (none, some "none", none)

/-- `calculate_progress_to_target` (data_service.py:116-162). The outer
`Option` marks the `IndexError` Python raises on an empty period list; the
triple is `(progress, target_type, target_value)`. The annual branch guard
embeds `indicator.targets and current_year in indicator.targets`: an absent
(`None`) or key-less dict, or a `None` `current_year`, falls through (an
empty dict is falsy in Python, and its lookup fails here, so the two
coincide). -/
def calculate_progress_to_target (data : KPIData) (ind : KPIIndicator) :
    Option (Option ℚ × Option String × Option ℚ) :=
  match (sortedPeriods data).getLast? with
  | none => none
  | some current_period =>
    match lookupStr current_period ind.measurements with
    | none => some (none, none, none)
    | some cm =>
      match cm.value with
      | none => some (none, none, none)
      | some current_value =>
        match cm.target with
        | some target => some (some (progressFrom current_value target), some "period", some target)
        | none =>
          match ind.targets, currentYear current_period with
          | some ts, some y =>
            match lookupStr y ts with
            | some target =>
              some (some (progressFrom (annualAggregate ind y) target), some "annual", some target)
            | none => some (legacyBranch ind current_value)
          | _, _ => some (legacyBranch ind current_value)

/-- The steward filter of `get_chart_data` (data_service.py:319-321).
Python's `if steward:` skips the filter for `None` and for the empty
string (both falsy). -/
def stewardFiltered (data : KPIData) (steward : Option String) : List KPIIndicator :=
  let indicators := data.indicators.map (fun kv => kv.2)
  match steward with
  | some s => if s = "" then indicators else
      indicators.filter (fun ind => ind.stewards.any (fun x => x = s))
  | none => indicators

/-- The per-indicator loop body of the trend-comparison chart
(data_service.py:351-359): the label (name truncated past 20 characters)
and the current and previous values, or `none` when either period lacks a
present, non-`None` measurement. -/
def chartEntry (current_period previous_period : String) (ind : KPIIndicator) :
    Option (String × ℚ × ℚ) :=
  match lookupStr current_period ind.measurements,
        lookupStr previous_period ind.measurements with
  | some cm, some pm =>
    match cm.value, pm.value with
    | some cv, some pv =>
      some (if 20 < pyLen ind.name then pyTake ind.name 20 ++ "..." else ind.name, cv, pv)
    | _, _ => none
  | _, _ => none

/-- The `domain_counts` dict build (data_service.py:324-327): increment in
place when the domain is already a key, append a fresh key otherwise
(Python dicts keep first-insertion order). -/
def bumpCount : List (String × Nat) → String → List (String × Nat)
  | [], d => [(d, 1)]
  | (k, v) :: rest, d => if k = d then (k, v + 1) :: rest else (k, v) :: bumpCount rest d

/-- `get_chart_data` (data_service.py:314-368). The three Python lists
built in one pass over `indicators[:10]` are recovered as projections of
one `filterMap`. -/
def get_chart_data (data : KPIData) (chart_type : String) (steward : Option String) :
    ChartData :=
  let indicators := stewardFiltered data steward
  if chart_type = "domain_distribution" then
    let domain_counts := indicators.foldl (fun acc ind => bumpCount acc ind.domain) []
    { labels := domain_counts.map (fun kv => kv.1)
      values := domain_counts.map (fun kv => (kv.2 : ℚ))
      colors := none
      type := "pie" }
  else if chart_type = "trend_comparison" then
    if (sortedPeriods data).length < 2 then
      { labels := [], values := [], colors := none, type := "bar" }
    else
      match (sortedPeriods data).getLast?, (sortedPeriods data).dropLast.getLast? with
      | some current_period, some previous_period =>
        let entries := (indicators.take 10).filterMap (chartEntry current_period previous_period)
        { labels := entries.map (fun e => e.1)
          values := entries.map (fun e => e.2.1) ++ entries.map (fun e => e.2.2)
          colors := none
          type := "grouped_bar" }
      | _, _ => { labels := [], values := [], colors := none, type := "bar" }
  else
    { labels := [], values := [], colors := none, type := "bar" }

/-- `_load_data` / `reload_data` (data_service.py:15-30), as a transition on
the service's single snapshot reference `self._data`. The file read, JSON
parse and pydantic validation are modelled by the `source` argument:
`.ok d` means the file parsed and validated in full to the catalog `d`,
`.error e` means any of those steps raised. The function returns the
operation's outcome and the new value of `self._data`: the snapshot is
assigned only after `KPIData(**data_dict)` has built the complete new
catalog, and is left untouched when loading raises. -/
def load_data (st : Option KPIData) (source : Except String KPIData) :
    Except String Unit × Option KPIData :=
  match source with
  | .error e => (.error ("Error loading JSON data: " ++ e), st)
  | .ok d => (.ok (), some d)

/-! ### Financial record extractor and aggregator (`app/financial_parser.py`) -/

/-- `FinancialYearData` (models.py), restricted to the fields the verified
extractor paths populate through `get_amount`/`get_int`; the optional
description-matched breakdown fields (membership dues, other-expense
categories, …) are not read by any claim and are omitted. -/
structure FinancialYearData where
  year : Int
  total_revenue : ℚ
  total_expenses : ℚ
  net_income : ℚ
  program_service_revenue : ℚ
  contributions_grants : ℚ
  investment_income : ℚ
  other_revenue : ℚ
  salaries_compensation : ℚ
  other_expenses : ℚ
  total_assets : ℚ
  total_liabilities : ℚ
  net_assets : ℚ
  total_employees : Int
  total_volunteers : Int
deriving DecidableEq

/-- `FinancialTrend` (models.py). -/
structure FinancialTrend where
  year : Int
  revenue : ℚ
  expenses : ℚ
  net_income : ℚ
  revenue_growth : Option ℚ
  expense_growth : Option ℚ
deriving DecidableEq

/-- `RevenueComposition` (models.py). -/
structure RevenueComposition where
  year : Int
  program_services : ℚ
  contributions : ℚ
  investment_income : ℚ
  other_revenue : ℚ
deriving DecidableEq

/-- `FinancialHealthMetrics` (models.py). -/
structure FinancialHealthMetrics where
  years : List FinancialYearData
  revenue_trend : List FinancialTrend
  revenue_composition : List RevenueComposition
  latest_year : Int
  years_available : List Int
deriving DecidableEq

/-- The `IRS990` element of one filing, at the granularity
`_extract_financial_data` reads it: `amount name` is the parsed numeric
text of element `name` when the element is present with numeric text
(`none` for an absent element or non-numeric text), and likewise `count`
for the integer fields. -/
structure Irs990 where
  amount : String → Option ℚ
  count : String → Option Int

/-- `get_amount` (financial_parser.py:93-102): absent or non-numeric
fields fall back to `0.0`. -/
def get_amount (irs990 : Irs990) (element_name : String) : ℚ :=
  (irs990.amount element_name).getD 0

/-- `get_int` (financial_parser.py:104-112): absent or non-numeric fields
fall back to `0`. -/
def get_int (irs990 : Irs990) (element_name : String) : Int :=
  (irs990.count element_name).getD 0

/-- `_extract_financial_data` (financial_parser.py:90-295), on the fields
kept in the embedded record. `net_income` is computed as
`total_revenue - total_expenses` (line 117); no element of the document is
consulted for it. -/
def extract_financial_data (irs990 : Irs990) (year : Int) : FinancialYearData :=
  { year := year
    total_revenue := get_amount irs990 "CYTotalRevenueAmt"
    total_expenses := get_amount irs990 "CYTotalExpensesAmt"
    net_income := get_amount irs990 "CYTotalRevenueAmt" - get_amount irs990 "CYTotalExpensesAmt"
    program_service_revenue := get_amount irs990 "CYProgramServiceRevenueAmt"
    contributions_grants := get_amount irs990 "CYContributionsGrantsAmt"
    investment_income := get_amount irs990 "CYInvestmentIncomeAmt"
    other_revenue := get_amount irs990 "CYOtherRevenueAmt"
    salaries_compensation := get_amount irs990 "CYSalariesCompEmpBnftPaidAmt"
    other_expenses := get_amount irs990 "CYOtherExpensesAmt"
    total_assets := get_amount irs990 "TotalAssetsEOYAmt"
    total_liabilities := get_amount irs990 "TotalLiabilitiesEOYAmt"
    net_assets := get_amount irs990 "NetAssetsOrFundBalancesEOYAmt"
    total_employees := get_int irs990 "TotalEmployeeCnt"
    total_volunteers := get_int irs990 "TotalVolunteersCnt" }

/-- One XML file of the batch, at the granularity `parse_single_form`
reads it: the filename stem, the text of the root's `TaxYr` element when
present with non-empty text, the `IRS990` element when found, and whether
`ET.parse` raises on the file. -/
structure XmlFile where
  stem : String
  taxYr : Option String
  irs990 : Option Irs990
  malformed : Bool

/-- `_extract_year` (financial_parser.py:76-88): the first four filename
characters when the stem starts with `"20"`, else the `TaxYr` text; `none`
embeds the raising paths (`int(...)` failing, or neither source
resolvable). -/
def extract_year (f : XmlFile) : Option Int :=
  if pyStartsWith f.stem "20" then
    (pyToNat (pyTake f.stem 4)).map Int.ofNat
  else
    match f.taxYr with
    | some txt => (pyToNat txt).map Int.ofNat
    | none => none

/-- `parse_single_form` (financial_parser.py:53-74): `none` for a file
that raises anywhere (malformed XML, unresolvable year) or lacks an
`IRS990` element; `some` is the extracted record. -/
def parse_single_form (f : XmlFile) : Option FinancialYearData :=
  if f.malformed then none
  else
    match extract_year f with
    | none => none
    | some year =>
      match f.irs990 with
      | none => none
      | some irs990 => some (extract_financial_data irs990 year)

/-- One output point of the `_calculate_trends` loop: the record at index
`i` paired with its predecessor (`none` exactly at index 0, which mirrors
the `i > 0` guard of financial_parser.py:321). -/
def trendPoint (prev : Option FinancialYearData) (cur : FinancialYearData) :
    FinancialTrend :=
  { year := cur.year
    revenue := cur.total_revenue
    expenses := cur.total_expenses
    net_income := cur.net_income
    revenue_growth :=
      match prev with
      | none => none
      | some p =>
        if p.total_revenue > 0 then
          some (((cur.total_revenue - p.total_revenue) / p.total_revenue) * 100)
        else none
    expense_growth :=
      match prev with
      | none => none
      | some p =>
        if p.total_expenses > 0 then
          some (((cur.total_expenses - p.total_expenses) / p.total_expenses) * 100)
        else none }

/-- `_calculate_trends` (financial_parser.py:313-337): index `i` of the
output pairs `financial_data[i]` with `financial_data[i-1]` (`none` at
index 0), exactly the loop's `enumerate` with its `i > 0` guard. -/
def calculate_trends (financial_data : List FinancialYearData) : List FinancialTrend :=
  List.zipWith trendPoint (none :: financial_data.map some) financial_data

/-- `_calculate_revenue_composition` (financial_parser.py:339-352). -/
def calculate_revenue_composition (financial_data : List FinancialYearData) :
    List RevenueComposition :=
  financial_data.map (fun r =>
    { year := r.year
      program_services := r.program_service_revenue
      contributions := r.contributions_grants
      investment_income := r.investment_income
      other_revenue := r.other_revenue })

/-- `parse_all_forms` (financial_parser.py:16-51): per-file failures are
skipped (`filterMap`), the batch fails exactly when no file yields a
record (`financial_data` is empty iff its sorted year list is `[]`), and
otherwise records and years are sorted ascending and `latest_year` is
`max(years_available)` (a left fold of `max` over the non-empty list). -/
def parse_all_forms (files : List XmlFile) : Except String FinancialHealthMetrics :=
  let financial_data := files.filterMap parse_single_form
  let years_available := financial_data.map (fun r => r.year)
  match pySortedInt years_available with
  | [] => .error "No valid 990 forms found"
  | y :: ys =>
    let sorted_data :=
      List.insertionSort (fun a b : FinancialYearData => a.year ≤ b.year) financial_data
    .ok { years := sorted_data
          revenue_trend := calculate_trends sorted_data
          revenue_composition := calculate_revenue_composition sorted_data
          latest_year := ys.foldl max y
          years_available := y :: ys }

/-! ### Spec-side definitions and concrete sample data -/

/-- Modelled from the claim's wording (C9): the value an indicator reports
for period `p` (defined for indicators that have a present, non-`None`
measurement there). -/
def measuredValue (p : String) (ind : KPIIndicator) : ℚ :=
  ((lookupStr p ind.measurements).bind (fun m => m.value)).getD 0

/-- Modelled from the claim's wording (C9): the indicator has a present,
non-`None` measurement in both of the two given periods. -/
def hasBothReadings (cp pp : String) (ind : KPIIndicator) : Bool :=
  ((lookupStr cp ind.measurements).bind (fun m => m.value)).isSome &&
  ((lookupStr pp ind.measurements).bind (fun m => m.value)).isSome

/-- A minimal indicator carrying only what the sampled claims exercise. -/
def mkIndicator (nm : String) (ms : List (String × KPIMeasurement)) : KPIIndicator :=
  { id := nm, name := nm, description := "", domain := "D", stewards := ["S"]
    primary_steward := "S", type := "N", unit := "n", target := none, targets := none
    target_operation := none, tags := [], image := none, trend_direction := "higher"
    measurements := ms }

/-- A minimal metadata block over the given period labels. -/
def mkMetadata (tps : List String) : KPIMetadata :=
  { version := "1", last_updated := "", data_source := "", time_periods := tps
    domains := ["D"], stewards := ["S"], refresh_timestamp := none }

/-- Catalog for the C1 counterexample: a single bare-year period label. -/
def bareYearInd : KPIIndicator :=
  { mkIndicator "IND" [("2025", ⟨some 5, none, none⟩)] with
      targets := some [("2025", 10)] }

/-- Catalog for the C1 counterexample. -/
def bareYearData : KPIData :=
  { metadata := mkMetadata ["2025"], indicators := [("IND", bareYearInd)] }

/-- Indicator for the C1 witness: quarterly readings 95 and 97 combined by
mode `average` against annual target 100 (the spec's own example). -/
def avgInd : KPIIndicator :=
  { mkIndicator "AVG" [("2025-T1", ⟨some 95, none, none⟩), ("2025-T2", ⟨some 97, none, none⟩)] with
      targets := some [("2025", 100)], target_operation := some "average" }

/-- Catalog for the C1 witness. -/
def avgData : KPIData :=
  { metadata := mkMetadata ["2025-T1", "2025-T2"], indicators := [("AVG", avgInd)] }

/-- Indicator for the C2 witness: previous = -10, current = 10. -/
def signCrossInd : KPIIndicator :=
  mkIndicator "X" [("2024", ⟨some (-10), none, none⟩), ("2025", ⟨some 10, none, none⟩)]

/-- Catalog for the C2 witness. -/
def signCrossData : KPIData :=
  { metadata := mkMetadata ["2024", "2025"], indicators := [("X", signCrossInd)] }

/-- Indicator for the C3 witness: a period-specific target 10 on the latest
period. -/
def periodTargetInd : KPIIndicator :=
  mkIndicator "P" [("2025", ⟨some 5, some 10, none⟩)]

/-- Catalog for the C3 witness. -/
def periodTargetData : KPIData :=
  { metadata := mkMetadata ["2025"], indicators := [("P", periodTargetInd)] }

/-- Two year-sorted financial records for the C5 witness. -/
def recA : FinancialYearData :=
  { year := 2020, total_revenue := 100, total_expenses := 0, net_income := 100
    program_service_revenue := 0, contributions_grants := 0, investment_income := 0
    other_revenue := 0, salaries_compensation := 0, other_expenses := 0
    total_assets := 0, total_liabilities := 0, net_assets := 0
    total_employees := 0, total_volunteers := 0 }

/-- Second record for the C5 witness. -/
def recB : FinancialYearData :=
  { recA with year := 2021, total_revenue := 150, total_expenses := 10, net_income := 140 }

/-- An `IRS990` element with every field absent (all defaults apply). -/
def emptyIrs990 : Irs990 := ⟨fun _ => none, fun _ => none⟩

/-- A parseable filing whose year comes from its filename. -/
def goodFile990 : XmlFile :=
  { stem := "2021_form990", taxYr := none, irs990 := some emptyIrs990, malformed := false }

/-- A filing with no year in the filename and none in the document. -/
def noYearFile990 : XmlFile :=
  { stem := "form990", taxYr := none, irs990 := some emptyIrs990, malformed := false }

/-- The C7 counterexample file: the stem starts with "20" but its 4-character
prefix is not numeric, while the in-document `TaxYr` is a perfectly good year. -/
def oddPrefixFile990 : XmlFile :=
  { stem := "20ab", taxYr := some "2021", irs990 := some emptyIrs990, malformed := false }

/-- The metrics `parse_all_forms` produces for the C6 witness batch. -/
def c6Metrics : FinancialHealthMetrics :=
  { years := [extract_financial_data emptyIrs990 2021]
    revenue_trend := calculate_trends [extract_financial_data emptyIrs990 2021]
    revenue_composition := calculate_revenue_composition [extract_financial_data emptyIrs990 2021]
    latest_year := 2021
    years_available := [2021] }

/-! ### Claim theorems -/

/-- Claim C4 (confirmed): every `FinancialYearRecord` the extractor produces
satisfies `net_income = total_revenue - total_expenses`, for every possible
source document — net income is recomputed, never read from the document. -/
theorem net_income_recomputed (irs990 : Irs990) (year : Int) :
    (extract_financial_data irs990 year).net_income =
      (extract_financial_data irs990 year).total_revenue -
        (extract_financial_data irs990 year).total_expenses := rfl

/-- Claim C8 (confirmed): the reload operation assigns the snapshot
reference only after the whole new catalog is built and validated; on a
load or validation failure it raises and leaves the published snapshot
unchanged, so an observer sees either the entire old catalog or the entire
new one, never a mix. -/
theorem reload_atomic_snapshot (st : Option KPIData) (source : Except String KPIData) :
    (∀ e, (load_data st source).1 = Except.error e → (load_data st source).2 = st) ∧
    (∀ d, source = Except.ok d →
        (load_data st source).1 = Except.ok () ∧ (load_data st source).2 = some d) ∧
    ((load_data st source).2 = st ∨
        ∃ d, source = Except.ok d ∧ (load_data st source).2 = some d) := by
  cases source <;> simp [load_data]

/-- Witness for `reload_atomic_snapshot` at a failed and a successful load. -/
theorem reload_atomic_snapshot_witness :
    (load_data (some bareYearData) (Except.error "boom")).2 = some bareYearData ∧
    (load_data (some bareYearData) (Except.ok avgData)).1 = Except.ok () ∧
    (load_data (some bareYearData) (Except.ok avgData)).2 = some avgData := by
  refine ⟨(reload_atomic_snapshot (some bareYearData) (Except.error "boom")).1
      "Error loading JSON data: boom" rfl, ?_⟩
  exact (reload_atomic_snapshot (some bareYearData) (Except.ok avgData)).2.1 avgData rfl

/-- Claim C10 (confirmed): any chart identifier other than
"domain_distribution" and "trend_comparison" — and "trend_comparison"
itself when fewer than two time periods exist — yields the empty
`ChartData` with `labels = []`, `values = []` and type "bar", with no
error or not-found signal. -/
theorem unknown_chart_type_returns_empty (data : KPIData) (steward : Option String) :
    (∀ chart_type, chart_type ≠ "domain_distribution" → chart_type ≠ "trend_comparison" →
        get_chart_data data chart_type steward = ⟨[], [], none, "bar"⟩) ∧
    (data.metadata.time_periods.length < 2 →
        get_chart_data data "trend_comparison" steward = ⟨[], [], none, "bar"⟩) := by
  constructor
  · intro chart_type h1 h2
    simp [get_chart_data, h1, h2]
  · intro h
    have hlt : (sortedPeriods data).length < 2 := by
      simpa [sortedPeriods, pySortedStr, List.length_insertionSort] using h
    simp [get_chart_data, hlt]

/-- Witness for `unknown_chart_type_returns_empty`: an unrecognized chart id
and a one-period catalog. -/
theorem unknown_chart_type_returns_empty_witness :
    get_chart_data bareYearData "revenue_trend" none = ⟨[], [], none, "bar"⟩ ∧
    get_chart_data bareYearData "trend_comparison" none = ⟨[], [], none, "bar"⟩ := by
  refine ⟨(unknown_chart_type_returns_empty bareYearData none).1 "revenue_trend"
      (by decide) (by decide), ?_⟩
  exact (unknown_chart_type_returns_empty bareYearData none).2 (by decide)

/-- Claim C7 (corrected). The claim says year resolution prefers a 4-digit
filename prefix and falls back to `TaxYr` whenever that prefix is absent
*or non-numeric*. In the code the fallback is taken only when the stem
does not start with "20"; a stem that starts with "20" but whose first
four characters do not parse as an integer raises instead, so the document
yields no record even when `TaxYr` is resolvable (see the counterexample).
Amended: when the stem starts with "20" the year is the parse of its first
four characters and an unparsable prefix fails the document without
consulting `TaxYr`; only when the stem does not start with "20" is `TaxYr`
consulted; resolution fails exactly when the branch taken cannot produce a
year, and a failed resolution means the document yields no record. -/
theorem extract_year_policy (f : XmlFile) :
    (pyStartsWith f.stem "20" = true →
        extract_year f = (pyToNat (pyTake f.stem 4)).map Int.ofNat) ∧
    (pyStartsWith f.stem "20" = false →
        extract_year f = (f.taxYr.bind pyToNat).map Int.ofNat) ∧
    (extract_year f = none ↔
        (pyStartsWith f.stem "20" = true ∧ pyToNat (pyTake f.stem 4) = none) ∨
        (pyStartsWith f.stem "20" = false ∧ f.taxYr.bind pyToNat = none)) ∧
    (extract_year f = none → parse_single_form f = none) := by
  refine ⟨?_, ?_, ?_, ?_⟩
  · intro h; simp [extract_year, h]
  · intro h; cases htax : f.taxYr <;> simp [extract_year, h, htax]
  · cases h : pyStartsWith f.stem "20" <;> cases htax : f.taxYr <;>
      simp [extract_year, h, htax]
  · intro h
    by_cases hm : f.malformed <;> simp [parse_single_form, hm, h]

/-- Witness for `extract_year_policy`: a filename-resolved year, a
`TaxYr`-resolved year, and a file with neither that yields no record. -/
theorem extract_year_policy_witness :
    extract_year goodFile990 = some 2021 ∧
    extract_year (XmlFile.mk "form990" (some "2019") (some emptyIrs990) false) = some 2019 ∧
    extract_year noYearFile990 = none ∧
    parse_single_form noYearFile990 = none := by
  refine ⟨?_, ?_, ?_, ?_⟩
  · rw [(extract_year_policy goodFile990).1 (by decide)]; decide
  · rw [(extract_year_policy (XmlFile.mk "form990" (some "2019") (some emptyIrs990) false)).2.1
      (by decide)]
    decide
  · exact (extract_year_policy noYearFile990).2.2.1.mpr (Or.inr (by decide))
  · exact (extract_year_policy noYearFile990).2.2.2
      ((extract_year_policy noYearFile990).2.2.1.mpr (Or.inr (by decide)))

/-- Claim C7, counterexample: the stem "20ab" starts with "20" but its
4-character prefix is not numeric, and the document's `TaxYr` is "2021".
The claim's fallback would resolve the year to 2021; the code raises inside
`int(...)` and the document yields no record. -/
theorem extract_year_numeric_prefix_counterexample :
    pyStartsWith oddPrefixFile990.stem "20" = true ∧
    oddPrefixFile990.taxYr.bind pyToNat = some 2021 ∧
    extract_year oddPrefixFile990 = none ∧
    parse_single_form oddPrefixFile990 = none := by decide

/-- Every output of `calculate_progress_to_target` is one of the four
shapes its branches produce; in particular every resolved progress is
`progressFrom` of some compared value and the returned target. -/
lemma progress_output_shape (data : KPIData) (ind : KPIIndicator) :
    calculate_progress_to_target data ind = none ∨
    calculate_progress_to_target data ind = some (none, none, none) ∨
    calculate_progress_to_target data ind = some (none, some "none", none) ∨
    ∃ cv t tt, calculate_progress_to_target data ind =
        some (some (progressFrom cv t), some tt, some t) := by
  unfold calculate_progress_to_target legacyBranch
  repeat' split
  any_goals simp
  all_goals exact ⟨_, rfl⟩

/-- Claim C3 (confirmed): whenever `calculate_progress_to_target` resolves a
target, the returned progress is `progressFrom` of the compared value and
that target, where a zero target yields 100 exactly for a zero compared
value and 0 otherwise, and a nonzero target yields the uncapped ratio
`current / target * 100` — in particular 150 against 100 is exactly 150. -/
theorem progress_policy_uncapped :
    (∀ data ind p tt t,
        calculate_progress_to_target data ind = some (some p, tt, some t) →
        ∃ cv, p = progressFrom cv t) ∧
    (∀ cv : ℚ, progressFrom cv 0 = if cv = 0 then 100 else 0) ∧
    (∀ cv t : ℚ, t ≠ 0 → progressFrom cv t = (cv / t) * 100) ∧
    progressFrom 150 100 = 150 := by
  refine ⟨?_, ?_, ?_, ?_⟩
  · intro data ind p tt t h
    obtain h' | h' | h' | ⟨cv, t0, tt0, h'⟩ := progress_output_shape data ind
    · rw [h'] at h; simp at h
    · rw [h'] at h; simp at h
    · rw [h'] at h; simp at h
    · rw [h'] at h
      simp only [Option.some.injEq, Prod.mk.injEq] at h
      obtain ⟨h1, h2, h3⟩ := h
      subst h3; subst h1
      exact ⟨_, rfl⟩
  · intro cv; simp [progressFrom]
  · intro cv t ht; simp [progressFrom, ht]
  · norm_num [progressFrom]

/-- Witness for `progress_policy_uncapped`: a resolved period target, the
nonzero-target formula at 150/100, and the zero-target policy at 5. -/
theorem progress_policy_uncapped_witness :
    (∃ cv, progressFrom 5 10 = progressFrom cv 10) ∧
    progressFrom 150 100 = (150 / 100) * 100 ∧
    progressFrom 5 0 = 0 := by
  refine ⟨progress_policy_uncapped.1 periodTargetData periodTargetInd
      (progressFrom 5 10) (some "period") 10 rfl, ?_, ?_⟩
  · exact progress_policy_uncapped.2.2.1 150 100 (by norm_num)
  · rw [progress_policy_uncapped.2.1 5]; norm_num

/-- Claim C2 (confirmed): for an indicator measured with non-`None` values
in both of the two lexicographically-latest periods, the percentage change
is `(current - previous)/previous * 100` for a nonzero same-signed
previous value, `100` or `0` (by the sign of current) for a zero previous
value, and `(current - previous)/|previous| * 100` when the values cross
zero; the label is "up"/"down"/"stable" by the sign of the change. -/
theorem calculate_trend_change_policy (data : KPIData) (ind : KPIIndicator)
    (cp pp : String) (cm pm : KPIMeasurement) (cv pv : ℚ)
    (hlen : ¬ data.metadata.time_periods.length < 2)
    (hcp : (sortedPeriods data).getLast? = some cp)
    (hpp : (sortedPeriods data).dropLast.getLast? = some pp)
    (hcm : lookupStr cp ind.measurements = some cm)
    (hpm : lookupStr pp ind.measurements = some pm)
    (hcv : cm.value = some cv) (hpv : pm.value = some pv) :
    ∃ tr, calculate_trend data ind = some tr ∧ tr.current = cv ∧ tr.previous = pv ∧
      (pv = 0 → tr.change_pct = if cv > 0 then 100 else 0) ∧
      ((0 < pv ∧ 0 < cv) ∨ (pv < 0 ∧ cv < 0) →
          tr.change_pct = ((cv - pv) / pv) * 100) ∧
      ((pv < 0 ∧ 0 < cv) ∨ (0 < pv ∧ cv < 0) →
          tr.change_pct = ((cv - pv) / |pv|) * 100) ∧
      (0 < tr.change_pct → tr.trend = "up") ∧
      (tr.change_pct < 0 → tr.trend = "down") ∧
      (tr.change_pct = 0 → tr.trend = "stable") := by
  have hres : calculate_trend data ind = some
      ⟨cv, pv,
        if pv = 0 then (if cv > 0 then 100 else 0)
        else if (pv < 0 ∧ cv > 0) ∨ (pv > 0 ∧ cv < 0) then ((cv - pv) / |pv|) * 100
        else ((cv - pv) / pv) * 100,
        if (if pv = 0 then (if cv > 0 then (100 : ℚ) else 0)
            else if (pv < 0 ∧ cv > 0) ∨ (pv > 0 ∧ cv < 0) then ((cv - pv) / |pv|) * 100
            else ((cv - pv) / pv) * 100) > 0 then "up"
        else if (if pv = 0 then (if cv > 0 then (100 : ℚ) else 0)
            else if (pv < 0 ∧ cv > 0) ∨ (pv > 0 ∧ cv < 0) then ((cv - pv) / |pv|) * 100
            else ((cv - pv) / pv) * 100) < 0 then "down"
        else "stable"⟩ := by
    rw [calculate_trend, if_neg hlen, hcp, hpp]
    simp only [hcm, hpm, hcv, hpv]
  refine ⟨_, hres, rfl, rfl, ?_, ?_, ?_, ?_, ?_, ?_⟩
  · intro h0; simp [h0]
  · rintro (⟨h1, h2⟩ | ⟨h1, h2⟩)
    · rw [if_neg (by linarith), if_neg (by rintro (⟨a, -⟩ | ⟨-, b⟩) <;> linarith)]
    · rw [if_neg (by linarith), if_neg (by rintro (⟨-, a⟩ | ⟨b, -⟩) <;> linarith)]
  · rintro (⟨h1, h2⟩ | ⟨h1, h2⟩)
    · rw [if_neg (by linarith), if_pos (Or.inl ⟨h1, h2⟩)]
    · rw [if_neg (by linarith), if_pos (Or.inr ⟨h1, h2⟩)]
  · intro h; simp only at h ⊢; rw [if_pos h]
  · intro h; simp only at h ⊢; rw [if_neg (by linarith), if_pos h]
  · intro h; simp only at h ⊢; rw [if_neg (by simp [h]), if_neg (by simp [h])]

/-- Witness for `calculate_trend_change_policy`: the spec's sign-crossing
example, previous = -10 and current = 10, giving change 200 and trend "up". -/
theorem calculate_trend_change_policy_witness :
    ∃ tr, calculate_trend signCrossData signCrossInd = some tr ∧
      tr.change_pct = 200 ∧ tr.trend = "up" := by
  obtain ⟨tr, heq, hcur, hprev, hzero, hsame, hcross, hup, hdown, hstable⟩ :=
    calculate_trend_change_policy signCrossData signCrossInd "2025" "2024"
      ⟨some 10, none, none⟩ ⟨some (-10), none, none⟩ 10 (-10)
      (by decide) (by decide) (by decide) (by decide) (by decide) rfl rfl
  have hch : tr.change_pct = 200 := by
    rw [hcross (Or.inl ⟨by norm_num, by norm_num⟩)]
    norm_num
  exact ⟨tr, heq, hch, hup (by rw [hch]; norm_num)⟩

/-- Claim C1 (corrected). The claim reads the current period's year as "the
label itself for a bare YYYY label"; in the code `current_year` is the text
before the first hyphen only when the label *contains* a hyphen and is
`None` otherwise, so for a bare "YYYY" label the annual branch is never
taken (see the counterexample, where the target type comes out "none").
Amended: when the lexicographically-latest period label contains a hyphen,
its measurement is present with a non-`None` value and carries no
period-specific target, and the per-year targets mapping contains the text
before the label's first hyphen, the result is target type "annual" with
the compared value aggregated over all measured periods whose label starts
with that year text — their sum, or their arithmetic mean when
`target_operation` is "average" — skipping `None` values, with 0 when the
year has no readings. -/
theorem annual_target_needs_hyphenated_period (data : KPIData) (ind : KPIIndicator)
    (cp y : String) (cm : KPIMeasurement) (cv : ℚ) (ts : List (String × ℚ)) (t : ℚ)
    (hcp : (sortedPeriods data).getLast? = some cp)
    (hy : currentYear cp = some y)
    (hcm : lookupStr cp ind.measurements = some cm)
    (hcv : cm.value = some cv)
    (hct : cm.target = none)
    (hts : ind.targets = some ts)
    (ht : lookupStr y ts = some t) :
    calculate_progress_to_target data ind =
      some (some (progressFrom
          (if (ind.measurements.filterMap
                (fun pm => if pyStartsWith pm.1 y then pm.2.value else none)).isEmpty
           then 0
           else if ind.target_operation = some "average" then
             (ind.measurements.filterMap
                (fun pm => if pyStartsWith pm.1 y then pm.2.value else none)).sum /
              (ind.measurements.filterMap
                (fun pm => if pyStartsWith pm.1 y then pm.2.value else none)).length
           else (ind.measurements.filterMap
                (fun pm => if pyStartsWith pm.1 y then pm.2.value else none)).sum) t),
        some "annual", some t) := by
  rw [calculate_progress_to_target, hcp]
  simp only [hcm, hcv, hct, hts, hy, ht]
  rfl

/-- Claim C1, counterexample: a catalog whose only (hence latest) period is
the bare-year label "2025", with a measured value, no period target, and an
annual target keyed by "2025". The claim says the result has target type
"annual"; the code skips the annual branch (its `current_year` is `None`
for a hyphen-less label) and returns target type "none" with no progress. -/
theorem annual_target_bare_year_counterexample :
    (sortedPeriods bareYearData).getLast? = some "2025" ∧
    lookupStr "2025" bareYearInd.measurements = some ⟨some 5, none, none⟩ ∧
    (bareYearInd.targets.getD []).map (fun kv => kv.1) = ["2025"] ∧
    calculate_progress_to_target bareYearData bareYearInd =
      some (none, some "none", none) := by decide

/-- Witness for `annual_target_needs_hyphenated_period`: the spec's own
example — periods 2025-T1 = 95 and 2025-T2 = 97 with mode "average" and
annual target 100 give compared value 96 and progress 96. -/
theorem annual_target_needs_hyphenated_period_witness :
    calculate_progress_to_target avgData avgInd = some (some 96, some "annual", some 100) := by
  rw [annual_target_needs_hyphenated_period avgData avgInd "2025-T2" "2025"
    ⟨some 97, none, none⟩ 97 [("2025", 100)] 100
    (by decide) (by decide) (by decide) rfl rfl rfl (by decide)]
  have hfm : avgInd.measurements.filterMap
      (fun pm => if pyStartsWith pm.1 "2025" then pm.2.value else none) = [95, 97] := by
    decide
  rw [hfm]
  have hop : avgInd.target_operation = some "average" := rfl
  simp only [hop, List.isEmpty_cons, List.sum_cons, List.sum_nil, List.length_cons,
    List.length_nil, if_false, if_true, Bool.false_eq_true, ite_false, ite_true]
  norm_num [progressFrom]

/-- Index lemma for `calculate_trends`: element `i` is `trendPoint` of the
predecessor (at `i - 1`, `none` for `i = 0`) and the record at `i`. -/
lemma calculate_trends_get (l : List FinancialYearData) (i : ℕ)
    (ht : i < (calculate_trends l).length) (hi : i < l.length) :
    (calculate_trends l).get ⟨i, ht⟩ =
      trendPoint ((none :: l.map some).get ⟨i, by simp; omega⟩) (l.get ⟨i, hi⟩) := by
  simp [calculate_trends, List.get_eq_getElem, List.getElem_zipWith]

/-- Claim C5 (confirmed): on a non-empty year-sorted record sequence the
trend list has the same length and year order, index 0 carries no growth
values, and for `i > 0` each growth value is `None` exactly when the
previous record's base is ≤ 0 and otherwise is the percentage change
against the previous record — independently for revenue and expenses. -/
theorem calculate_trends_growth_policy (l : List FinancialYearData)
    (hne : l ≠ []) (hsorted : List.Sorted (fun a b => a.year ≤ b.year) l) :
    (calculate_trends l).length = l.length ∧
    (∀ i (ht : i < (calculate_trends l).length) (hi : i < l.length),
        ((calculate_trends l).get ⟨i, ht⟩).year = (l.get ⟨i, hi⟩).year) ∧
    (∀ (h0 : 0 < (calculate_trends l).length),
        ((calculate_trends l).get ⟨0, h0⟩).revenue_growth = none ∧
        ((calculate_trends l).get ⟨0, h0⟩).expense_growth = none) ∧
    (∀ i (ht : i < (calculate_trends l).length) (hi : i < l.length)
        (hp : i - 1 < l.length), 0 < i →
        ((((calculate_trends l).get ⟨i, ht⟩).revenue_growth = none ↔
            (l.get ⟨i - 1, hp⟩).total_revenue ≤ 0) ∧
         (0 < (l.get ⟨i - 1, hp⟩).total_revenue →
            ((calculate_trends l).get ⟨i, ht⟩).revenue_growth =
              some (((l.get ⟨i, hi⟩).total_revenue - (l.get ⟨i - 1, hp⟩).total_revenue) /
                  (l.get ⟨i - 1, hp⟩).total_revenue * 100)) ∧
         (((calculate_trends l).get ⟨i, ht⟩).expense_growth = none ↔
            (l.get ⟨i - 1, hp⟩).total_expenses ≤ 0) ∧
         (0 < (l.get ⟨i - 1, hp⟩).total_expenses →
            ((calculate_trends l).get ⟨i, ht⟩).expense_growth =
              some (((l.get ⟨i, hi⟩).total_expenses - (l.get ⟨i - 1, hp⟩).total_expenses) /
                  (l.get ⟨i - 1, hp⟩).total_expenses * 100)))) := by
  refine ⟨?_, ?_, ?_, ?_⟩
  · simp [calculate_trends, List.length_zipWith]
  · intro i ht hi
    rw [calculate_trends_get l i ht hi]
    rfl
  · intro h0
    have hi : 0 < l.length := by
      simpa [calculate_trends, List.length_zipWith] using h0
    rw [calculate_trends_get l 0 h0 hi]
    exact ⟨rfl, rfl⟩
  · intro i ht hi hp hpos
    obtain ⟨j, rfl⟩ : ∃ j, i = j + 1 := ⟨i - 1, by omega⟩
    rw [calculate_trends_get l (j + 1) ht hi]
    have hj : j < l.length := by omega
    have hprev : (none :: l.map some).get ⟨j + 1, by simp; omega⟩ =
        some (l.get ⟨j, hj⟩) := by
      simp [List.get_eq_getElem]
    rw [hprev]
    have hidx : (⟨j + 1 - 1, hp⟩ : Fin l.length) = ⟨j, hj⟩ := by
      congr 1
    rw [hidx]
    refine ⟨?_, ?_, ?_, ?_⟩
    · simp only [trendPoint]
      split
      · rename_i hgt
        constructor
        · intro h; cases h
        · intro h; linarith
      · rename_i hgt
        push_neg at hgt
        exact ⟨fun _ => hgt, fun _ => rfl⟩
    · intro h
      simp only [trendPoint]
      rw [if_pos h]
    · simp only [trendPoint]
      split
      · rename_i hgt
        constructor
        · intro h; cases h
        · intro h; linarith
      · rename_i hgt
        push_neg at hgt
        exact ⟨fun _ => hgt, fun _ => rfl⟩
    · intro h
      simp only [trendPoint]
      rw [if_pos h]

/-- Witness for `calculate_trends_growth_policy`: two sorted records with
revenues 100 and 150 (growth 50%) and expenses 0 and 10 (growth undefined
because the base is 0). -/
theorem calculate_trends_growth_policy_witness :
    ((calculate_trends [recA, recB]).get ⟨1, by decide⟩).revenue_growth = some 50 ∧
    ((calculate_trends [recA, recB]).get ⟨1, by decide⟩).expense_growth = none ∧
    ((calculate_trends [recA, recB]).get ⟨0, by decide⟩).revenue_growth = none := by
  obtain ⟨hlen, hyear, hzero, hstep⟩ :=
    calculate_trends_growth_policy [recA, recB] (by simp)
      (by simp [List.sorted_cons, recA, recB])
  obtain ⟨hr1, hr2, he1, he2⟩ := hstep 1 (by decide) (by decide) (by decide) (by decide)
  refine ⟨?_, ?_, (hzero (by decide)).1⟩
  · rw [hr2 (by decide)]
    simp only [List.get_eq_getElem, List.getElem_cons_zero, List.getElem_cons_succ]
    norm_num [recA, recB]
  · exact he1.mpr (by decide)

/-- A left fold of `max` over a list is one of the starting value or the
elements. -/
lemma foldl_max_mem (ys : List Int) : ∀ y : Int, ys.foldl max y ∈ y :: ys := by
  induction ys with
  | nil => intro y; simp
  | cons a ys ih =>
    intro y
    have h := ih (max y a)
    rcases max_choice y a with hc | hc <;> rw [hc] at h <;>
      simp only [List.foldl_cons, hc, List.mem_cons] at h ⊢ <;> tauto

/-- A left fold of `max` bounds the starting value and every element. -/
lemma le_foldl_max (ys : List Int) : ∀ y z : Int, z ∈ y :: ys → z ≤ ys.foldl max y := by
  induction ys with
  | nil =>
    intro y z hz
    simp only [List.mem_cons, List.not_mem_nil, or_false] at hz
    simp [hz]
  | cons a ys ih =>
    intro y z hz
    simp only [List.foldl_cons]
    simp only [List.mem_cons] at hz
    rcases hz with rfl | rfl | hz
    · exact le_trans (le_max_left z a) (ih (max z a) (max z a) (by simp))
    · exact le_trans (le_max_right y z) (ih (max y z) (max y z) (by simp))
    · exact ih (max y a) z (by simp [hz])

/-- Claim C6 (confirmed): a document with an unresolvable year or a missing
`IRS990` element yields no record; the batch errors exactly when no
document yields a record; and a successful batch has its years list sorted
ascending with `latest_year` the maximum year present. -/
theorem parse_all_forms_batch_semantics (files : List XmlFile) :
    ((∃ e, parse_all_forms files = Except.error e) ↔
        ∀ f ∈ files, parse_single_form f = none) ∧
    (∀ f ∈ files, (extract_year f = none ∨ f.irs990 = none) →
        parse_single_form f = none) ∧
    (∀ m, parse_all_forms files = Except.ok m →
        List.Sorted (fun a b : Int => a ≤ b) m.years_available ∧
        m.latest_year ∈ m.years_available ∧
        ∀ y ∈ m.years_available, y ≤ m.latest_year) := by
  refine ⟨?_, ?_, ?_⟩
  · rw [parse_all_forms]
    rcases hsort : pySortedInt ((files.filterMap parse_single_form).map (fun r => r.year))
      with - | ⟨y, ys⟩
    · have hempty : (files.filterMap parse_single_form).map (fun r => r.year) = [] := by
        have := List.perm_insertionSort
          (fun a b : Int => a ≤ b)
          ((files.filterMap parse_single_form).map (fun r => r.year))
        rw [pySortedInt] at hsort
        rw [hsort] at this
        exact this.symm.eq_nil
      simp only [hsort]
      simp only [List.map_eq_nil_iff, List.filterMap_eq_nil_iff] at hempty
      simpa using hempty
    · simp only [hsort]
      constructor
      · rintro ⟨e, he⟩; cases he
      · intro hall
        have : (files.filterMap parse_single_form).map (fun r => r.year) = [] := by
          simp only [List.map_eq_nil_iff, List.filterMap_eq_nil_iff]
          exact hall
        rw [pySortedInt, this] at hsort
        cases hsort
  · intro f hf h
    by_cases hm : f.malformed
    · simp [parse_single_form, hm]
    · rcases h with h | h
      · simp [parse_single_form, hm, h]
      · cases hx : extract_year f <;> simp [parse_single_form, hm, h, hx]
  · intro m hm
    rw [parse_all_forms] at hm
    rcases hsort : pySortedInt ((files.filterMap parse_single_form).map (fun r => r.year))
      with - | ⟨y, ys⟩ <;> rw [hsort] at hm
    · cases hm
    · obtain rfl : m = _ := (Except.ok.injEq .. ▸ hm).symm
      have hsorted : List.Sorted (fun a b : Int => a ≤ b) (y :: ys) := by
        rw [pySortedInt] at hsort
        rw [← hsort]
        exact List.sorted_insertionSort _ _
      refine ⟨hsorted, ?_, ?_⟩
      · exact foldl_max_mem ys y
      · intro z hz
        exact le_foldl_max ys y z hz

/-- Witness for `parse_all_forms_batch_semantics`: a batch of one yearless
document (skipped) and one good document; the batch succeeds with the
single year 2021 as its sorted years list and latest year. -/
theorem parse_all_forms_batch_semantics_witness :
    parse_single_form noYearFile990 = none ∧
    parse_all_forms [noYearFile990, goodFile990] = Except.ok c6Metrics ∧
    List.Sorted (fun a b : Int => a ≤ b) c6Metrics.years_available ∧
    c6Metrics.latest_year ∈ c6Metrics.years_available := by
  obtain ⟨herr, hskip, hok⟩ := parse_all_forms_batch_semantics [noYearFile990, goodFile990]
  have hres : parse_all_forms [noYearFile990, goodFile990] = Except.ok c6Metrics := rfl
  refine ⟨hskip noYearFile990 (List.mem_cons_self _ _) (Or.inl (by decide)), hres, ?_, ?_⟩
  · exact (hok c6Metrics hres).1
  · exact (hok c6Metrics hres).2.1

/-- `chartEntry` succeeds exactly on indicators with present, non-`None`
measurements in both periods. -/
lemma chartEntry_isSome (cp pp : String) (ind : KPIIndicator) :
    (chartEntry cp pp ind).isSome = hasBothReadings cp pp ind := by
  unfold chartEntry hasBothReadings
  cases h1 : lookupStr cp ind.measurements with
  | none => simp
  | some cm =>
    cases h2 : lookupStr pp ind.measurements with
    | none => simp
    | some pm =>
      cases hv1 : cm.value <;> cases hv2 : pm.value <;> simp [hv1, hv2]

/-- The entry a successful `chartEntry` returns: truncated name, current
value, previous value. -/
lemma chartEntry_some_eq (cp pp : String) (ind : KPIIndicator) (e : String × ℚ × ℚ)
    (h : chartEntry cp pp ind = some e) :
    e = (if 20 < pyLen ind.name then pyTake ind.name 20 ++ "..." else ind.name,
         measuredValue cp ind, measuredValue pp ind) := by
  cases h1 : lookupStr cp ind.measurements with
  | none => simp [chartEntry, h1] at h
  | some cm =>
    cases h2 : lookupStr pp ind.measurements with
    | none => simp [chartEntry, h1, h2] at h
    | some pm =>
      cases hv1 : cm.value with
      | none => simp [chartEntry, h1, h2, hv1] at h
      | some cv =>
        cases hv2 : pm.value with
        | none => simp [chartEntry, h1, h2, hv1, hv2] at h
        | some pv =>
          simp only [chartEntry, h1, h2, hv1, hv2, Option.some.injEq] at h
          subst h
          simp [measuredValue, h1, h2, hv1, hv2]

/-- The one-pass triple build of the trend-comparison chart splits into a
filter by `hasBothReadings` followed by the three projections. -/
lemma chart_entries_split (cp pp : String) (l : List KPIIndicator) :
    ((l.filterMap (chartEntry cp pp)).map (fun e => e.1) =
      (l.filter (fun i => hasBothReadings cp pp i)).map
        (fun i => if 20 < pyLen i.name then pyTake i.name 20 ++ "..." else i.name)) ∧
    ((l.filterMap (chartEntry cp pp)).map (fun e => e.2.1) =
      (l.filter (fun i => hasBothReadings cp pp i)).map (fun i => measuredValue cp i)) ∧
    ((l.filterMap (chartEntry cp pp)).map (fun e => e.2.2) =
      (l.filter (fun i => hasBothReadings cp pp i)).map (fun i => measuredValue pp i)) := by
  induction l with
  | nil => simp
  | cons a l ih =>
    obtain ⟨ih1, ih2, ih3⟩ := ih
    cases h : chartEntry cp pp a with
    | none =>
      have hb : hasBothReadings cp pp a = false := by
        rw [← chartEntry_isSome, h]; rfl
      simp [List.filterMap_cons, List.filter_cons, h, hb, ih1, ih2, ih3]
    | some e =>
      have hb : hasBothReadings cp pp a = true := by
        rw [← chartEntry_isSome, h]; rfl
      have he := chartEntry_some_eq cp pp a e h
      subst he
      simp [List.filterMap_cons, List.filter_cons, h, hb, ih1, ih2, ih3]

/-- Claim C9 (corrected). The claim says the ten charted indicators are the
first ten of the engine's (domain ascending, name ascending) sort order;
`get_chart_data` never sorts — it takes the first ten indicators in the
catalog's iteration (insertion) order, after the steward filter (see the
counterexample). Amended: the chart includes at most ten indicators — the
first ten of the steward-filtered catalog in catalog order — omitting any
of those ten lacking a present, non-`None` measurement in either of the two
lexicographically-latest periods, and its values list is the included
indicators' current values followed by their previous values. -/
theorem trend_comparison_first_ten_catalog_order (data : KPIData)
    (steward : Option String) (cp pp : String)
    (hlen : ¬ (sortedPeriods data).length < 2)
    (hcp : (sortedPeriods data).getLast? = some cp)
    (hpp : (sortedPeriods data).dropLast.getLast? = some pp) :
    (get_chart_data data "trend_comparison" steward).labels =
      (((stewardFiltered data steward).take 10).filter
          (fun i => hasBothReadings cp pp i)).map
        (fun i => if 20 < pyLen i.name then pyTake i.name 20 ++ "..." else i.name) ∧
    (get_chart_data data "trend_comparison" steward).values =
      (((stewardFiltered data steward).take 10).filter
          (fun i => hasBothReadings cp pp i)).map (fun i => measuredValue cp i) ++
      (((stewardFiltered data steward).take 10).filter
          (fun i => hasBothReadings cp pp i)).map (fun i => measuredValue pp i) ∧
    (get_chart_data data "trend_comparison" steward).labels.length ≤ 10 := by
  have key : get_chart_data data "trend_comparison" steward =
      ChartData.mk
        ((((stewardFiltered data steward).take 10).filterMap (chartEntry cp pp)).map
          (fun e => e.1))
        ((((stewardFiltered data steward).take 10).filterMap (chartEntry cp pp)).map
            (fun e => e.2.1) ++
          (((stewardFiltered data steward).take 10).filterMap (chartEntry cp pp)).map
            (fun e => e.2.2))
        none "grouped_bar" := by
    simp only [get_chart_data]
    rw [if_neg hlen]
    simp only [hcp, hpp]
    rfl
  obtain ⟨h1, h2, h3⟩ := chart_entries_split cp pp ((stewardFiltered data steward).take 10)
  have hlab : (get_chart_data data "trend_comparison" steward).labels =
      (((stewardFiltered data steward).take 10).filter
          (fun i => hasBothReadings cp pp i)).map
        (fun i => if 20 < pyLen i.name then pyTake i.name 20 ++ "..." else i.name) := by
    rw [key]; exact h1
  have hval : (get_chart_data data "trend_comparison" steward).values =
      (((stewardFiltered data steward).take 10).filter
          (fun i => hasBothReadings cp pp i)).map (fun i => measuredValue cp i) ++
      (((stewardFiltered data steward).take 10).filter
          (fun i => hasBothReadings cp pp i)).map (fun i => measuredValue pp i) := by
    rw [key]
    show _ ++ _ = _
    rw [h2, h3]
  refine ⟨hlab, hval, ?_⟩
  rw [hlab, List.length_map]
  exact le_trans (List.length_filter_le _ _) (List.length_take_le _ _)

/-- Claim C9, counterexample: eleven indicators in one domain, inserted in
catalog order i11, i01, ..., i10, all with readings in both periods. The
claim's (domain, name) sort order would chart i01 through i10; the code
charts the first ten in catalog order — i11 is included and i10 is not,
although i10 precedes i11 in the sort order. -/
theorem trend_comparison_not_sorted_counterexample :
    (get_chart_data
        (KPIData.mk (mkMetadata ["2024", "2025"])
          ([("i11", mkIndicator "i11" [("2024", ⟨some 1, none, none⟩), ("2025", ⟨some 2, none, none⟩)])] ++
            (["i01", "i02", "i03", "i04", "i05", "i06", "i07", "i08", "i09", "i10"].map
              (fun nm => (nm, mkIndicator nm
                [("2024", ⟨some 1, none, none⟩), ("2025", ⟨some 2, none, none⟩)])))))
        "trend_comparison" none).labels =
      ["i11", "i01", "i02", "i03", "i04", "i05", "i06", "i07", "i08", "i09"] ∧
    pyStrLe "i10" "i11" = true := by decide

/-- Witness for `trend_comparison_first_ten_catalog_order` on a concrete
two-period catalog. -/
theorem trend_comparison_first_ten_catalog_order_witness :
    (get_chart_data signCrossData "trend_comparison" none).labels.length ≤ 10 := by
  exact (trend_comparison_first_ten_catalog_order signCrossData none "2025" "2024"
    (by decide) (by decide) (by decide)).2.2
